import Mathlib

/-!
Verification of the OAuth browser-automation helpers of the sign-in
repository, as a shallow embedding in Lean 4.

Embedded source:
  * src/utils/oauth_helpers.py
      classify_oauth_url, is_authorization_url,
      retry_async_operation, async_retry
  * src/platforms/newapi_base.py
      the LinuxDO-button search and the cookie-extraction tail of
      _execute_nodriver_oauth_flow

Python strings are embedded as Lean String, Python None and non-string
arguments as extra constructors of a PyVal type, Python float delays as
Rat, and raised exceptions as an explicit outcome type.  Stateful code
(the retry loop and the flow-driver fragments) is embedded as pure
functions that also return a trace of the observable events (operation
calls, sleeps, navigations).
-/

/- ======================================================================
   String helpers mirroring the Python primitives used by the source:
   substring test (`in`), str.lower() and str.strip() for ASCII input.
   ====================================================================== -/

/-- Boolean test that the first list starts with the second list,
used to build the substring test. -/
def listPrefixOf : List Char → List Char → Bool
  | [], _ => true
  | _ :: _, [] => false
  | a :: as, b :: bs => a == b && listPrefixOf as bs

/-- Boolean substring-occurrence test on character lists:
the first argument occurs contiguously inside the second. -/
def listInfixOf : List Char → List Char → Bool
  | pat, [] => listPrefixOf pat []
  | pat, b :: bs => listPrefixOf pat (b :: bs) || listInfixOf pat bs

/-- Python `pat in hay` on strings: substring occurrence. -/
def strContains (hay pat : String) : Bool :=
  listInfixOf pat.data hay.data

/-- ASCII lower-casing of one character, as Python str.lower() does on
ASCII letters (code points 65-90 are shifted by 32). -/
def lowerChar (c : Char) : Char :=
  if 65 ≤ c.toNat ∧ c.toNat ≤ 90 then Char.ofNat (c.toNat + 32) else c

/-- Python str.lower() restricted to ASCII input. -/
def pyLower (s : String) : String := String.mk (s.data.map lowerChar)

/-- Python str.strip(): drop leading and trailing whitespace. -/
def pyStrip (s : String) : String :=
  String.mk (((s.data.dropWhile Char.isWhitespace).reverse.dropWhile
      Char.isWhitespace).reverse)

/-- A Python value passed where a string is expected: None, an actual
string, or some non-string object.  classify_oauth_url and
is_authorization_url guard on `not x or not isinstance(x, str)`, which
sends None, the empty string and every non-string down the same path. -/
inductive PyVal where
  | pyNone : PyVal
  | pyStr : String → PyVal
  | pyOther : PyVal
deriving DecidableEq

/- ======================================================================
   URL classifier (src/utils/oauth_helpers.py lines 424-514).
   ====================================================================== -/

/-- OAuthURLType enumeration from src/utils/oauth_helpers.py. -/
inductive OAuthURLType where
  | LINUXDO_LOGIN : OAuthURLType
  | AUTHORIZATION : OAuthURLType
  | OAUTH_COMPLETE : OAuthURLType
  | OTHER : OAuthURLType
deriving DecidableEq

/-- The Python reassignment `target_domain = ""` applied to falsy or
non-string target domains in classify_oauth_url (lines 460-461):
keep an actual string, replace everything else by the empty string. -/
def pyStrOrEmpty : PyVal → String
  | .pyStr t => t
  | _ => ""

/-- classify_oauth_url from src/utils/oauth_helpers.py lines 424-484.
Non-string or empty url returns OTHER; non-string target domain is
replaced by the empty string; the three rules are tested in priority
order on the lower-cased url, with the target domain lower-cased and
stripped. -/
def classify_oauth_url (url target_domain : PyVal) : OAuthURLType :=
  match url with
  | .pyStr s =>
    if s = "" then .OTHER
    else
      let t := pyStrOrEmpty target_domain
      let url_lower := pyLower s
      let target_domain_lower := pyStrip (pyLower t)
      if strContains url_lower "authorize" then .AUTHORIZATION
      else if strContains url_lower "linux.do" then .LINUXDO_LOGIN
      else if target_domain_lower ≠ "" ∧ strContains url_lower target_domain_lower then
        if strContains url_lower "login" then .OTHER else .OAUTH_COMPLETE
      else .OTHER
  | _ => .OTHER

/-- is_authorization_url from src/utils/oauth_helpers.py lines 499-514:
False for empty or non-string input, False whenever the lower-cased url
contains the provider marker, else the "authorize" substring test. -/
def is_authorization_url (url : PyVal) : Bool :=
  match url with
  | .pyStr s =>
    if s = "" then false
    else if strContains (pyLower s) "linux.do" then false
    else strContains (pyLower s) "authorize"
  | _ => false

/- Basic facts about the substring test needed below. -/

theorem listPrefixOf_nil_left (l : List Char) : listPrefixOf [] l = true := by
  cases l <;> rfl

theorem listInfixOf_nil_right (a : Char) (as : List Char) :
    listInfixOf (a :: as) [] = false := rfl

/-- A non-empty pattern cannot occur inside the empty string, hence a
string with a non-empty substring is itself non-empty. -/
theorem strContains_nonempty {hay pat : String}
    (h : strContains hay pat = true) (hp : pat ≠ "") : hay ≠ "" := by
  intro he
  subst he
  rcases hd : pat.data with _ | ⟨a, as⟩
  · exact hp (by cases pat; simp_all)
  · rw [strContains, hd] at h
    simp [listInfixOf_nil_right] at h

theorem pyLower_empty : pyLower "" = "" := rfl

/-- Lower-casing the empty string only: an auxiliary evaluation fact. -/
theorem strContains_pyLower_empty (pat : String) (hp : pat ≠ "") :
    ∀ s : String, strContains (pyLower s) pat = true → s ≠ "" := by
  intro s h he
  subst he
  exact strContains_nonempty h hp rfl

/- ======================================================================
   Claim theorems about the URL classifier.
   ====================================================================== -/

/-- C1 (counterexample): the claim states that for every url the result
is OTHER whenever the target domain is empty; but the source classifies
"https://linux.do/login" with an empty target domain as LINUXDO_LOGIN
(rules 1 and 2 never consult the target domain, and the repository's
own is_linuxdo_login_url relies on exactly this behaviour). -/
theorem classify_empty_target_counterexample :
    classify_oauth_url (.pyStr "https://linux.do/login") (.pyStr "") =
      .LINUXDO_LOGIN ∧
    OAuthURLType.LINUXDO_LOGIN ≠ OAuthURLType.OTHER := by
  constructor
  · decide
  · decide

/-- C1 (amended): classify_oauth_url is total (always one of the four
enumeration values; it is a Lean function, so it never raises), every
empty, None or non-string url yields OTHER, and an empty, None,
non-string or whitespace-only target domain only disables the
completion rule: the result is then never OAUTH_COMPLETE (but may still
be AUTHORIZATION or LINUXDO_LOGIN). -/
theorem classify_totality_and_degradation (url target : PyVal) :
    (classify_oauth_url url target = .LINUXDO_LOGIN ∨
     classify_oauth_url url target = .AUTHORIZATION ∨
     classify_oauth_url url target = .OAUTH_COMPLETE ∨
     classify_oauth_url url target = .OTHER) ∧
    ((url = .pyNone ∨ url = .pyStr "" ∨ url = .pyOther) →
      classify_oauth_url url target = .OTHER) ∧
    ((target = .pyNone ∨ target = .pyOther ∨
        (∃ t, target = .pyStr t ∧ pyStrip (pyLower t) = "")) →
      classify_oauth_url url target ≠ .OAUTH_COMPLETE) := by
  refine ⟨?_, ?_, ?_⟩
  · cases h : classify_oauth_url url target <;> simp
  · rintro (rfl | rfl | rfl) <;> simp [classify_oauth_url]
  · intro h hc
    have htl : pyStrip (pyLower (pyStrOrEmpty target)) = "" := by
      rcases h with rfl | rfl | ⟨t, rfl, ht⟩
      · rfl
      · rfl
      · simpa [pyStrOrEmpty] using ht
    cases url with
    | pyNone => simp [classify_oauth_url] at hc
    | pyOther => simp [classify_oauth_url] at hc
    | pyStr s =>
      simp only [classify_oauth_url, htl] at hc
      split_ifs at hc <;> simp_all

/-- C1 (witness for the amended theorem): concrete degraded inputs. -/
theorem classify_totality_and_degradation_witness :
    classify_oauth_url .pyNone (.pyStr "example.com") = .OTHER ∧
    classify_oauth_url (.pyStr "https://example.com/ok") .pyNone ≠
      .OAUTH_COMPLETE :=
  ⟨(classify_totality_and_degradation .pyNone (.pyStr "example.com")).2.1
      (Or.inl rfl),
   (classify_totality_and_degradation (.pyStr "https://example.com/ok")
      .pyNone).2.2 (Or.inl rfl)⟩

/-- C2: classifier priority.  Any url string whose lower-casing contains
both the provider marker "linux.do" and "authorize" is classified as
AUTHORIZATION for every target domain, never as LINUXDO_LOGIN, because
the "authorize" rule is tested first. -/
theorem classify_priority_authorize (s : String) (target : PyVal)
    (_hld : strContains (pyLower s) "linux.do" = true)
    (hauth : strContains (pyLower s) "authorize" = true) :
    classify_oauth_url (.pyStr s) target = .AUTHORIZATION := by
  have hs : s ≠ "" := strContains_pyLower_empty "authorize" (by decide) s hauth
  simp [classify_oauth_url, hs, hauth]

/-- C2 (witness): the provider's own authorization URL. -/
theorem classify_priority_authorize_witness :
    classify_oauth_url (.pyStr "https://connect.linux.do/oauth2/authorize")
      (.pyStr "example.com") = .AUTHORIZATION :=
  classify_priority_authorize _ _ (by decide) (by decide)

/-- C3: classifier completion rule.  For a url containing the trimmed,
lower-cased, non-empty target domain and containing neither "authorize"
nor the provider marker: if it does not contain "login" the result is
OAUTH_COMPLETE, and if it does contain "login" the result is not
OAUTH_COMPLETE. -/
theorem classify_completion_rule (s t : String)
    (ht : pyStrip (pyLower t) ≠ "")
    (hin : strContains (pyLower s) (pyStrip (pyLower t)) = true)
    (hnauth : strContains (pyLower s) "authorize" = false)
    (hnld : strContains (pyLower s) "linux.do" = false) :
    (strContains (pyLower s) "login" = false →
      classify_oauth_url (.pyStr s) (.pyStr t) = .OAUTH_COMPLETE) ∧
    (strContains (pyLower s) "login" = true →
      classify_oauth_url (.pyStr s) (.pyStr t) ≠ .OAUTH_COMPLETE) := by
  have hs : s ≠ "" := strContains_pyLower_empty _ ht s hin
  refine ⟨fun hlog => ?_, fun hlog => ?_⟩ <;>
    simp [classify_oauth_url, pyStrOrEmpty, hs, hnauth, hnld, ht, hin, hlog]

/-- C3 (witness): a dashboard URL completes, a login URL does not. -/
theorem classify_completion_rule_witness :
    classify_oauth_url (.pyStr "https://example.com/dashboard")
      (.pyStr "example.com") = .OAUTH_COMPLETE ∧
    classify_oauth_url (.pyStr "https://example.com/login")
      (.pyStr "example.com") ≠ .OAUTH_COMPLETE :=
  ⟨(classify_completion_rule "https://example.com/dashboard" "example.com"
      (by decide) (by decide) (by decide) (by decide)).1 (by decide),
   (classify_completion_rule "https://example.com/login" "example.com"
      (by decide) (by decide) (by decide) (by decide)).2 (by decide)⟩

/-- C10: the standalone predicate is_authorization_url is True exactly
on non-empty url strings whose lower-casing contains "authorize" but
not "linux.do"; hence on every url containing both markers it answers
False while classify_oauth_url answers AUTHORIZATION for every target
domain - the two disagree on the priority of the provider marker. -/
theorem is_authorization_url_divergence (url d : PyVal) :
    (is_authorization_url url = true ↔
      ∃ s, url = .pyStr s ∧ s ≠ "" ∧
        strContains (pyLower s) "authorize" = true ∧
        strContains (pyLower s) "linux.do" = false) ∧
    (∀ s, url = .pyStr s →
      strContains (pyLower s) "linux.do" = true →
      strContains (pyLower s) "authorize" = true →
      is_authorization_url url = false ∧
      classify_oauth_url url d = .AUTHORIZATION) := by
  constructor
  · constructor
    · intro h
      cases url with
      | pyNone => simp [is_authorization_url] at h
      | pyOther => simp [is_authorization_url] at h
      | pyStr s =>
        simp only [is_authorization_url] at h
        split_ifs at h with h1 h2
        exact ⟨s, rfl, h1, h, by simpa using h2⟩
    · rintro ⟨s, rfl, hs, hauth, hld⟩
      simp [is_authorization_url, hs, hauth, hld]
  · rintro s rfl hld hauth
    have hs : s ≠ "" :=
      strContains_pyLower_empty "authorize" (by decide) s hauth
    exact ⟨by simp [is_authorization_url, hs, hld],
           by simp [classify_oauth_url, hs, hauth]⟩

/-- C10 (witness): the provider's authorization URL, on which the two
classifiers disagree. -/
theorem is_authorization_url_divergence_witness :
    is_authorization_url
      (.pyStr "https://connect.linux.do/oauth2/authorize") = false ∧
    classify_oauth_url (.pyStr "https://connect.linux.do/oauth2/authorize")
      (.pyStr "example.com") = .AUTHORIZATION :=
  (is_authorization_url_divergence
      (.pyStr "https://connect.linux.do/oauth2/authorize")
      (.pyStr "example.com")).2 _ rfl (by decide) (by decide)

/- ======================================================================
   Retry engine (src/utils/oauth_helpers.py lines 556-705).

   retry_async_operation and the wrapper produced by the async_retry
   decorator run the same loop: for attempt in 1..max_retries, call the
   operation; on success return its value; on an exception caught by the
   retryable filter sleep min(base_delay * backoff_factor^(attempt-1),
   max_delay) when attempt < max_retries, else fall out of the loop and
   re-raise the last exception; an exception not matched by the filter
   propagates at once.  The embedding returns the trace of operation
   calls and sleeps together with the outcome.  The operation is a
   function from the (1-based) attempt number to a result, exceptions
   are an abstract type with a Boolean retryable filter (Python default
   (Exception,) catches everything), and float delays are rationals.
   ====================================================================== -/

/-- Python min on the two delay quantities: the first argument wins ties,
as Python min does. -/
def ratMin (a b : Rat) : Rat := if Rat.blt b a then b else a

/-- One observable step of the retry loop: an invocation of the wrapped
operation (with its attempt number) or an asyncio.sleep of a delay. -/
inductive RetryEvent where
  | call : Nat → RetryEvent
  | sleep : Rat → RetryEvent
deriving DecidableEq

/-- Outcome of the retry loop: the operation's value, a propagated
exception, or the unreachable RuntimeError raised when the loop body
never ran (max_retries = 0). -/
inductive ROut (ε α : Type) where
  | ok : α → ROut ε α
  | raised : ε → ROut ε α
  | logicError : ROut ε α
deriving DecidableEq

/-- The loop body shared by retry_async_operation (lines 672-699) and
the async_retry wrapper (lines 596-615), one attempt per unit of fuel;
the fuel starts at max_retries so it never runs out before the
`attempt < max_retries` guard stops the recursion. -/
def retryGo {ε α : Type} (op : Nat → Except ε α) (retryable : ε → Bool)
    (base_delay backoff_factor max_delay : Rat) (max_retries : Nat) :
    Nat → Nat → List RetryEvent × ROut ε α
  | 0, _ => ([], .logicError)
  | fuel + 1, attempt =>
    match op attempt with
    | .ok v => ([.call attempt], .ok v)
    | .error e =>
      if retryable e then
        if attempt < max_retries then
          let delay := ratMin (base_delay * backoff_factor ^ (attempt - 1)) max_delay
          let rest := retryGo op retryable base_delay backoff_factor max_delay
            max_retries fuel (attempt + 1)
          (.call attempt :: .sleep delay :: rest.1, rest.2)
        else ([.call attempt], .raised e)
      else ([.call attempt], .raised e)

/-- retry_async_operation from src/utils/oauth_helpers.py lines 630-705:
the loop starting at attempt 1. -/
def retry_async_operation {ε α : Type} (op : Nat → Except ε α)
    (retryable : ε → Bool) (max_retries : Nat)
    (base_delay backoff_factor max_delay : Rat) :
    List RetryEvent × ROut ε α :=
  retryGo op retryable base_delay backoff_factor max_delay
    max_retries max_retries 1

/-- The wrapper built by the async_retry decorator, src/utils/
oauth_helpers.py lines 556-627; its loop (lines 596-623) is the same as
the one of retry_async_operation. -/
def async_retry {ε α : Type} (op : Nat → Except ε α)
    (retryable : ε → Bool) (max_retries : Nat)
    (base_delay backoff_factor max_delay : Rat) :
    List RetryEvent × ROut ε α :=
  retryGo op retryable base_delay backoff_factor max_delay
    max_retries max_retries 1

/-- The operation calls recorded in a trace, in order. -/
def callsOf (tr : List RetryEvent) : List Nat :=
  tr.filterMap fun e => match e with
    | .call i => some i
    | _ => none

/-- The sleep delays recorded in a trace, in order. -/
def sleepsOf (tr : List RetryEvent) : List Rat :=
  tr.filterMap fun e => match e with
    | .sleep d => some d
    | _ => none

/-- The exponential-backoff delay the source computes before retrying
attempt i + 1, for 1-based attempt i. -/
def backoffDelay (base_delay backoff_factor max_delay : Rat) (i : Nat) : Rat :=
  ratMin (base_delay * backoff_factor ^ (i - 1)) max_delay

/-- The trace prefix produced by n consecutive failing retryable
attempts starting at the given attempt number: call, sleep, call,
sleep, ... -/
def retrySchedule (δ : Nat → Rat) : Nat → Nat → List RetryEvent
  | _, 0 => []
  | attempt, n + 1 =>
    .call attempt :: .sleep (δ attempt) :: retrySchedule δ (attempt + 1) n

theorem callsOf_retrySchedule (δ : Nat → Rat) :
    ∀ n attempt, callsOf (retrySchedule δ attempt n) = List.range' attempt n := by
  intro n
  induction n with
  | zero => intro attempt; rfl
  | succ m ih =>
    intro attempt
    simp only [retrySchedule, callsOf, List.filterMap_cons, List.range'_succ]
    simpa [callsOf] using ih (attempt + 1)

theorem sleepsOf_retrySchedule (δ : Nat → Rat) :
    ∀ n attempt,
      sleepsOf (retrySchedule δ attempt n) = (List.range' attempt n).map δ := by
  intro n
  induction n with
  | zero => intro attempt; rfl
  | succ m ih =>
    intro attempt
    simp only [retrySchedule, sleepsOf, List.filterMap_cons, List.range'_succ,
      List.map_cons]
    simpa [sleepsOf] using ih (attempt + 1)

/-- One-step unfolding of the loop body. -/
theorem retryGo_succ_eq {ε α : Type} (op : Nat → Except ε α)
    (retryable : ε → Bool) (base_delay backoff_factor max_delay : Rat)
    (max_retries fuel attempt : Nat) :
    retryGo op retryable base_delay backoff_factor max_delay max_retries
        (fuel + 1) attempt =
      match op attempt with
      | .ok v => ([.call attempt], .ok v)
      | .error e =>
        if retryable e then
          if attempt < max_retries then
            (.call attempt ::
              .sleep (ratMin (base_delay * backoff_factor ^ (attempt - 1))
                max_delay) ::
              (retryGo op retryable base_delay backoff_factor max_delay
                max_retries fuel (attempt + 1)).1,
             (retryGo op retryable base_delay backoff_factor max_delay
                max_retries fuel (attempt + 1)).2)
          else ([.call attempt], .raised e)
        else ([.call attempt], .raised e) := rfl

/-- On sustained retryable failure the loop runs through its whole
schedule: calls at every remaining attempt with a sleep after each
attempt but the last, and the last attempt's exception as outcome. -/
theorem retryGo_allFail {ε α : Type} (op : Nat → Except ε α)
    (errOf : Nat → ε) (retryable : ε → Bool)
    (base_delay backoff_factor max_delay : Rat) (max_retries : Nat)
    (hop : ∀ i, op i = .error (errOf i))
    (hr : ∀ i, retryable (errOf i) = true) :
    ∀ fuel attempt, 1 ≤ fuel → attempt + fuel = max_retries + 1 →
      retryGo op retryable base_delay backoff_factor max_delay max_retries
          fuel attempt =
        (retrySchedule (backoffDelay base_delay backoff_factor max_delay)
            attempt (fuel - 1) ++ [.call max_retries],
         .raised (errOf max_retries)) := by
  intro fuel
  induction fuel with
  | zero => intro attempt h; omega
  | succ f ih =>
    intro attempt _ hsum
    cases f with
    | zero =>
      have ha : attempt = max_retries := by omega
      subst ha
      rw [retryGo_succ_eq, hop attempt]
      simp [hr attempt, retrySchedule]
    | succ f' =>
      have hlt : attempt < max_retries := by omega
      have hrec := ih (attempt + 1) (by omega) (by omega)
      rw [retryGo_succ_eq, hop attempt]
      simp [hr attempt, hlt, hrec, retrySchedule, backoffDelay,
        Nat.add_sub_cancel]

/-- On success at the k-th attempt the loop stops there: the trace is
the failing prefix followed by the successful call, and the outcome is
the operation's value. -/
theorem retryGo_earlySuccess {ε α : Type} (op : Nat → Except ε α)
    (errOf : Nat → ε) (retryable : ε → Bool)
    (base_delay backoff_factor max_delay : Rat) (max_retries k : Nat)
    (v : α)
    (hop : ∀ i, i < k → op i = .error (errOf i))
    (hr : ∀ i, i < k → retryable (errOf i) = true)
    (hk : op k = .ok v) (hkm : k ≤ max_retries) :
    ∀ fuel attempt, attempt ≤ k → attempt + fuel = max_retries + 1 →
      retryGo op retryable base_delay backoff_factor max_delay max_retries
          fuel attempt =
        (retrySchedule (backoffDelay base_delay backoff_factor max_delay)
            attempt (k - attempt) ++ [.call k],
         .ok v) := by
  intro fuel
  induction fuel with
  | zero => intro attempt h1 h2; omega
  | succ f ih =>
    intro attempt hak hsum
    rcases Nat.lt_or_ge attempt k with hlt | hge
    · have hlt2 : attempt < max_retries := by omega
      have hrec := ih (attempt + 1) (by omega) (by omega)
      rw [retryGo_succ_eq, hop attempt hlt]
      have hk1 : k - attempt = (k - (attempt + 1)) + 1 := by omega
      rw [hk1]
      simp [hr attempt hlt, hlt2, hrec, retrySchedule, backoffDelay]
    · have ha : attempt = k := by omega
      subst ha
      rw [retryGo_succ_eq, hk]
      simp [retrySchedule]

/-- An exception rejected by the retryable filter stops the loop at
once: a single call, no sleep, the exception as outcome. -/
theorem retryGo_nonRetryable {ε α : Type} (op : Nat → Except ε α)
    (retryable : ε → Bool)
    (base_delay backoff_factor max_delay : Rat) (max_retries : Nat)
    (e : ε) (attempt fuel : Nat)
    (hop : op attempt = .error e) (hnr : retryable e = false)
    (hf : 1 ≤ fuel) :
    retryGo op retryable base_delay backoff_factor max_delay max_retries
        fuel attempt = ([.call attempt], .raised e) := by
  cases fuel with
  | zero => omega
  | succ f => simp [retryGo, hop, hnr]

theorem callsOf_append (a b : List RetryEvent) :
    callsOf (a ++ b) = callsOf a ++ callsOf b := by
  simp [callsOf]

theorem sleepsOf_append (a b : List RetryEvent) :
    sleepsOf (a ++ b) = sleepsOf a ++ sleepsOf b := by
  simp [sleepsOf]

theorem callsOf_call_singleton (i : Nat) :
    callsOf [RetryEvent.call i] = [i] := rfl

theorem sleepsOf_call_singleton (i : Nat) :
    sleepsOf [RetryEvent.call i] = [] := rfl

theorem range'_concat_self (m : Nat) (hm : 1 ≤ m) :
    List.range' 1 (m - 1) ++ [m] = List.range' 1 m := by
  conv_rhs => rw [show m = (m - 1) + 1 by omega]
  rw [List.range'_concat]
  congr 2
  omega

/- ======================================================================
   Claim theorems about the retry engine.
   ====================================================================== -/

/-- C5: retry exhaustion.  For max_retries at least 1 and an operation
that raises a retryable exception on every call, both
retry_async_operation and the async_retry wrapper invoke the operation
exactly max_retries times (attempts 1..max_retries, in order) and then
propagate the exception raised by the final attempt unchanged. -/
theorem retry_exhaustion {ε α : Type} (op : Nat → Except ε α)
    (errOf : Nat → ε) (retryable : ε → Bool)
    (base_delay backoff_factor max_delay : Rat) (max_retries : Nat)
    (hmr : 1 ≤ max_retries)
    (hop : ∀ i, op i = .error (errOf i))
    (hr : ∀ i, retryable (errOf i) = true) :
    callsOf (retry_async_operation op retryable max_retries base_delay
        backoff_factor max_delay).1 = List.range' 1 max_retries ∧
    (retry_async_operation op retryable max_retries base_delay
        backoff_factor max_delay).2 = .raised (errOf max_retries) ∧
    callsOf (async_retry op retryable max_retries base_delay
        backoff_factor max_delay).1 = List.range' 1 max_retries ∧
    (async_retry op retryable max_retries base_delay backoff_factor
        max_delay).2 = .raised (errOf max_retries) := by
  have h := retryGo_allFail op errOf retryable base_delay backoff_factor
    max_delay max_retries hop hr max_retries 1 hmr (by omega)
  have hc : callsOf (retryGo op retryable base_delay backoff_factor
      max_delay max_retries max_retries 1).1 = List.range' 1 max_retries := by
    rw [h]
    simp only [callsOf_append, callsOf_retrySchedule, callsOf_call_singleton]
    exact range'_concat_self max_retries hmr
  have ho : (retryGo op retryable base_delay backoff_factor max_delay
      max_retries max_retries 1).2 = .raised (errOf max_retries) := by
    rw [h]
  exact ⟨hc, ho, hc, ho⟩

/-- C5 (witness): max_retries = 3 with an always-failing operation. -/
theorem retry_exhaustion_witness :
    callsOf (retry_async_operation (fun i => (Except.error i : Except Nat Nat))
        (fun _ => true) 3 1 2 30).1 = List.range' 1 3 ∧
    (retry_async_operation (fun i => (Except.error i : Except Nat Nat))
        (fun _ => true) 3 1 2 30).2 = .raised 3 ∧
    callsOf (async_retry (fun i => (Except.error i : Except Nat Nat))
        (fun _ => true) 3 1 2 30).1 = List.range' 1 3 ∧
    (async_retry (fun i => (Except.error i : Except Nat Nat))
        (fun _ => true) 3 1 2 30).2 = .raised 3 :=
  retry_exhaustion (fun i => Except.error i) (fun i => i) (fun _ => true)
    1 2 30 3 (by decide) (fun _ => rfl) (fun _ => rfl)

/-- C6: backoff schedule.  With a sustained-failing retryable operation
both engines sleep exactly max_retries - 1 times, the first trace event
is the call of attempt 1 (no sleep precedes it), and the i-th sleep
(between attempts i and i + 1) is
min(base_delay * backoff_factor^(i-1), max_delay); no jitter exists in
the model, which is deterministic by construction. -/
theorem retry_backoff_schedule {ε α : Type} (op : Nat → Except ε α)
    (errOf : Nat → ε) (retryable : ε → Bool)
    (base_delay backoff_factor max_delay : Rat) (max_retries : Nat)
    (_hb : 0 < base_delay) (_hf : 1 ≤ backoff_factor) (_hm : 0 < max_delay)
    (hmr : 1 ≤ max_retries)
    (hop : ∀ i, op i = .error (errOf i))
    (hr : ∀ i, retryable (errOf i) = true) :
    sleepsOf (retry_async_operation op retryable max_retries base_delay
        backoff_factor max_delay).1 =
      (List.range' 1 (max_retries - 1)).map
        (backoffDelay base_delay backoff_factor max_delay) ∧
    (sleepsOf (retry_async_operation op retryable max_retries base_delay
        backoff_factor max_delay).1).length = max_retries - 1 ∧
    (retry_async_operation op retryable max_retries base_delay
        backoff_factor max_delay).1.head? = some (.call 1) ∧
    sleepsOf (async_retry op retryable max_retries base_delay
        backoff_factor max_delay).1 =
      (List.range' 1 (max_retries - 1)).map
        (backoffDelay base_delay backoff_factor max_delay) ∧
    (async_retry op retryable max_retries base_delay backoff_factor
        max_delay).1.head? = some (.call 1) := by
  have h := retryGo_allFail op errOf retryable base_delay backoff_factor
    max_delay max_retries hop hr max_retries 1 hmr (by omega)
  have hs : sleepsOf (retryGo op retryable base_delay backoff_factor
      max_delay max_retries max_retries 1).1 =
      (List.range' 1 (max_retries - 1)).map
        (backoffDelay base_delay backoff_factor max_delay) := by
    rw [h]
    simp [sleepsOf_append, sleepsOf_retrySchedule, sleepsOf_call_singleton]
  have hlen : (sleepsOf (retryGo op retryable base_delay backoff_factor
      max_delay max_retries max_retries 1).1).length = max_retries - 1 := by
    rw [hs]
    simp
  have hhead : (retryGo op retryable base_delay backoff_factor max_delay
      max_retries max_retries 1).1.head? = some (.call 1) := by
    rw [h]
    rcases Nat.eq_zero_or_pos (max_retries - 1) with h0 | hpos
    · rw [h0]
      have h1 : max_retries = 1 := by omega
      rw [h1]
      rfl
    · obtain ⟨n, hn⟩ : ∃ n, max_retries - 1 = n + 1 :=
        ⟨max_retries - 2, by omega⟩
      rw [hn]
      rfl
  exact ⟨hs, hlen, hhead, hs, hhead⟩

/-- C6 (witness): the default policy (base 1, factor 2, cap 30) over
three attempts. -/
theorem retry_backoff_schedule_witness :
    sleepsOf (retry_async_operation (fun i => (Except.error i : Except Nat Nat))
        (fun _ => true) 3 1 2 30).1 =
      (List.range' 1 (3 - 1)).map (backoffDelay 1 2 30) ∧
    (sleepsOf (retry_async_operation (fun i => (Except.error i : Except Nat Nat))
        (fun _ => true) 3 1 2 30).1).length = 3 - 1 ∧
    (retry_async_operation (fun i => (Except.error i : Except Nat Nat))
        (fun _ => true) 3 1 2 30).1.head? = some (.call 1) ∧
    sleepsOf (async_retry (fun i => (Except.error i : Except Nat Nat))
        (fun _ => true) 3 1 2 30).1 =
      (List.range' 1 (3 - 1)).map (backoffDelay 1 2 30) ∧
    (async_retry (fun i => (Except.error i : Except Nat Nat))
        (fun _ => true) 3 1 2 30).1.head? = some (.call 1) :=
  retry_backoff_schedule (fun i => Except.error i) (fun i => i)
    (fun _ => true) 1 2 30 3 (by decide) (by decide) (by decide) (by decide)
    (fun _ => rfl) (fun _ => rfl)

/-- C7: early success.  An operation that raises retryable exceptions on
attempts 1..k-1 and succeeds on attempt k with k at most max_retries is
called exactly k times by both engines, the successful value is
returned, and the last trace event is the successful call (so no sleep
follows it). -/
theorem retry_early_success {ε α : Type} (op : Nat → Except ε α)
    (errOf : Nat → ε) (retryable : ε → Bool)
    (base_delay backoff_factor max_delay : Rat) (max_retries k : Nat)
    (v : α) (hk1 : 1 ≤ k) (hk2 : k ≤ max_retries)
    (hop : ∀ i, i < k → op i = .error (errOf i))
    (hr : ∀ i, i < k → retryable (errOf i) = true)
    (hok : op k = .ok v) :
    callsOf (retry_async_operation op retryable max_retries base_delay
        backoff_factor max_delay).1 = List.range' 1 k ∧
    (retry_async_operation op retryable max_retries base_delay
        backoff_factor max_delay).2 = .ok v ∧
    (retry_async_operation op retryable max_retries base_delay
        backoff_factor max_delay).1.getLast? = some (.call k) ∧
    callsOf (async_retry op retryable max_retries base_delay
        backoff_factor max_delay).1 = List.range' 1 k ∧
    (async_retry op retryable max_retries base_delay backoff_factor
        max_delay).2 = .ok v ∧
    (async_retry op retryable max_retries base_delay backoff_factor
        max_delay).1.getLast? = some (.call k) := by
  have h := retryGo_earlySuccess op errOf retryable base_delay
    backoff_factor max_delay max_retries k v hop hr hok hk2 max_retries 1
    hk1 (by omega)
  have hc : callsOf (retryGo op retryable base_delay backoff_factor
      max_delay max_retries max_retries 1).1 = List.range' 1 k := by
    rw [h]
    simp only [callsOf_append, callsOf_retrySchedule, callsOf_call_singleton]
    exact range'_concat_self k hk1
  have ho : (retryGo op retryable base_delay backoff_factor max_delay
      max_retries max_retries 1).2 = .ok v := by
    rw [h]
  have hl : (retryGo op retryable base_delay backoff_factor max_delay
      max_retries max_retries 1).1.getLast? = some (.call k) := by
    rw [h]
    exact List.getLast?_concat _
  exact ⟨hc, ho, hl, hc, ho, hl⟩

/-- C7 (witness): success on attempt 2 of 3. -/
theorem retry_early_success_witness :
    callsOf (retry_async_operation
        (fun i => if i < 2 then (Except.error i : Except Nat Nat)
          else .ok 42) (fun _ => true) 3 1 2 30).1 = List.range' 1 2 ∧
    (retry_async_operation
        (fun i => if i < 2 then (Except.error i : Except Nat Nat)
          else .ok 42) (fun _ => true) 3 1 2 30).2 = .ok 42 ∧
    (retry_async_operation
        (fun i => if i < 2 then (Except.error i : Except Nat Nat)
          else .ok 42) (fun _ => true) 3 1 2 30).1.getLast? =
      some (.call 2) ∧
    callsOf (async_retry
        (fun i => if i < 2 then (Except.error i : Except Nat Nat)
          else .ok 42) (fun _ => true) 3 1 2 30).1 = List.range' 1 2 ∧
    (async_retry
        (fun i => if i < 2 then (Except.error i : Except Nat Nat)
          else .ok 42) (fun _ => true) 3 1 2 30).2 = .ok 42 ∧
    (async_retry
        (fun i => if i < 2 then (Except.error i : Except Nat Nat)
          else .ok 42) (fun _ => true) 3 1 2 30).1.getLast? =
      some (.call 2) :=
  retry_early_success
    (fun i => if i < 2 then (Except.error i : Except Nat Nat) else .ok 42)
    (fun i => i) (fun _ => true) 1 2 30 3 2 42 (by decide) (by decide)
    (fun i hi => by simp [hi]) (fun _ _ => rfl) rfl

/-- C8: non-retryable pass-through.  If the first attempt raises an
exception rejected by the retryable filter, both engines stop at once:
the trace is a single call of attempt 1 with no sleep, and the
exception propagates unchanged. -/
theorem retry_nonretryable_passthrough {ε α : Type} (op : Nat → Except ε α)
    (retryable : ε → Bool)
    (base_delay backoff_factor max_delay : Rat) (max_retries : Nat)
    (e : ε) (hmr : 1 ≤ max_retries)
    (hop : op 1 = .error e) (hnr : retryable e = false) :
    retry_async_operation op retryable max_retries base_delay
        backoff_factor max_delay = ([.call 1], .raised e) ∧
    async_retry op retryable max_retries base_delay backoff_factor
        max_delay = ([.call 1], .raised e) := by
  have h := retryGo_nonRetryable op retryable base_delay backoff_factor
    max_delay max_retries e 1 max_retries hop hnr hmr
  exact ⟨h, h⟩

/-- C8 (witness): a non-retryable exception on the first attempt of a
three-attempt policy. -/
theorem retry_nonretryable_passthrough_witness :
    retry_async_operation (fun _ => (Except.error 7 : Except Nat Nat))
        (fun _ => false) 3 1 2 30 = ([.call 1], .raised 7) ∧
    async_retry (fun _ => (Except.error 7 : Except Nat Nat))
        (fun _ => false) 3 1 2 30 = ([.call 1], .raised 7) :=
  retry_nonretryable_passthrough (fun _ => Except.error 7) (fun _ => false)
    1 2 30 3 7 (by decide) rfl rfl

/- ======================================================================
   OAuth Flow Driver fragments (src/platforms/newapi_base.py,
   _execute_nodriver_oauth_flow).

   Button search, lines 546-641.  The driver first navigates to the
   sibling register page and back to the login page unconditionally
   (lines 546-558, a workaround for sites that only render the button
   after that round trip), then searches the login page with three
   strategies in order: (1) scan all button elements for html that is
   truthy and contains "LinuxDO" (case-sensitive; lines 597-609),
   (2) a text find of the exact label (lines 612-618), (3) a text find
   of the shorter "LinuxDO" text (lines 621-627).  Every strategy
   swallows its own exceptions, which the embedding renders as Option
   results; exhaustion logs the not-found message and returns False
   (lines 629-641).  The page is abstracted as the html of its button
   elements plus the two text-find oracle results.
   ====================================================================== -/

/-- The exact label text the source passes to the first text find. -/
def linuxdoExactLabel : String := "使用 LinuxDO 继续"

/-- Abstraction of one loaded page as the button search sees it:
per-button html (none models get_html failing or returning nothing)
and the results of the two text finds on that page. -/
structure PageView where
  buttonHtml : List (Option String)
  findExactLabel : Bool
  findShortLabel : Bool
deriving DecidableEq

/-- The two pages the driver fragment can be on. -/
structure SiteView where
  loginPage : PageView
  registerPage : PageView
deriving DecidableEq

/-- Which strategy located the control. -/
inductive FoundBy where
  | htmlScan : Nat → FoundBy
  | exactTextFind : FoundBy
  | shortTextFind : FoundBy
deriving DecidableEq

/-- The scan of select_all button results, lines 599-607: the first
button whose html is truthy and contains "LinuxDO" (Python `in`,
case-sensitive). -/
def scanButtonsAux : Nat → List (Option String) → Option Nat
  | _, [] => none
  | i, some h :: rest =>
    if h ≠ "" ∧ strContains h "LinuxDO" = true then some i
    else scanButtonsAux (i + 1) rest
  | i, none :: rest => scanButtonsAux (i + 1) rest

/-- The prioritized search of the source, lines 578-627: html scan,
then exact-label text find, then short-label text find. -/
def find_linuxdo_button (p : PageView) : Option FoundBy :=
  match scanButtonsAux 0 p.buttonHtml with
  | some i => some (.htmlScan i)
  | none =>
    if p.findExactLabel then some .exactTextFind
    else if p.findShortLabel then some .shortTextFind
    else none

/-- Navigations the fragment performs before searching. -/
inductive NavStep where
  | toRegisterPage : NavStep
  | toLoginPage : NavStep
deriving DecidableEq

/-- Result of the button-search fragment of the flow driver. -/
inductive ButtonPhaseResult where
  | found : FoundBy → ButtonPhaseResult
  | failed : String → ButtonPhaseResult
deriving DecidableEq

/-- The button-search fragment of _execute_nodriver_oauth_flow, lines
546-641: the unconditional register/login round trip followed by the
three-strategy search of the login page; exhaustion returns the failed
verdict with the logged not-found reason (and no exception, the
function being total). -/
def buttonSearchPhase (site : SiteView) : List NavStep × ButtonPhaseResult :=
  ([.toRegisterPage, .toLoginPage],
   match find_linuxdo_button site.loginPage with
   | some b => .found b
   | none => .failed "未找到 LinuxDO 登录按钮")

/-- Modelled from the claim C4 / spec wording, for comparison with the
source: strategy (a) scans the button-like elements for the provider's
exact label, strategy (b) falls back to a substring label match, and
strategy (c) falls back to navigating to the sibling register page and
retrying the search there. -/
def specButtonStrategies (p : PageView) : Bool :=
  p.buttonHtml.any (fun h? => h? == some linuxdoExactLabel) ||
  p.buttonHtml.any (fun h? => match h? with
    | some h => strContains h "LinuxDO"
    | none => false)

/-- Modelled from the claim C4 / spec wording: the overall search
succeeds when the strategies succeed on the login page or, after the
register-page fallback, on the register page. -/
def specButtonSearchSucceeds (site : SiteView) : Bool :=
  specButtonStrategies site.loginPage ||
  specButtonStrategies site.registerPage

/-- A site whose login page shows no trace of the control while its
register page renders the exact-label button. -/
def c4Site : SiteView :=
  { loginPage :=
      { buttonHtml := [], findExactLabel := false, findShortLabel := false }
    registerPage :=
      { buttonHtml := [some "使用 LinuxDO 继续"], findExactLabel := true,
        findShortLabel := true } }

/-- C4 (counterexample): the claim describes the register page as a
search fallback - strategy (c) retries the search there.  On a site
whose register page renders the button while the login page does not,
the claimed strategy list locates a control, but the source driver
fails: it visits the register page only as an unconditional
pre-navigation (lines 546-558) and never searches it. -/
theorem button_search_strategy_counterexample :
    specButtonSearchSucceeds c4Site = true ∧
    (buttonSearchPhase c4Site).2 = .failed "未找到 LinuxDO 登录按钮" := by
  constructor
  · decide
  · rfl

/-- C4 (amended): the driver unconditionally navigates to the sibling
register page and back to the login page, then searches only the login
page by three prioritized strategies (html scan for the provider
marker, exact-label text find, short-label text find); whenever all
three yield no control the fragment ends with the failed verdict whose
reason is the "LinuxDO login button not found" log message, and no
exception escapes (the embedded fragment is a total function whose
strategy failures are Option results). -/
theorem button_search_exhaustion (site : SiteView)
    (h : find_linuxdo_button site.loginPage = none) :
    buttonSearchPhase site =
      ([NavStep.toRegisterPage, NavStep.toLoginPage],
       .failed "未找到 LinuxDO 登录按钮") := by
  simp [buttonSearchPhase, h]

/-- C4 (witness for the amended theorem): the counterexample site,
whose login page defeats all three strategies. -/
theorem button_search_exhaustion_witness :
    buttonSearchPhase c4Site =
      ([NavStep.toRegisterPage, NavStep.toLoginPage],
       .failed "未找到 LinuxDO 登录按钮") :=
  button_search_exhaustion c4Site rfl

/- ======================================================================
   Cookie-extraction tail of _execute_nodriver_oauth_flow, lines
   870-889.  The driver asks the CookieRetriever for the session cookie
   on the active tab; if that yields nothing falsy-wise and the driver
   had switched tabs (tab != original_tab), it switches back to the
   original tab and asks the retriever exactly once more; a still-falsy
   result makes the flow return False after logging the missing-cookie
   message.  The environment abstracts the two retriever answers and
   whether a tab switch had happened.
   ====================================================================== -/

/-- Environment of the cookie-extraction tail: whether the driver had
switched tabs earlier, and what get_session_cookie returns on the
active tab and (after switching back) on the original tab. -/
structure CookieEnv where
  switchedTab : Bool
  activeTabCookie : Option String
  originalTabCookie : Option String
deriving DecidableEq

/-- Python truthiness of the str-or-None result of get_session_cookie:
None and the empty string are falsy. -/
def pyTruthyOptStr : Option String → Bool
  | none => false
  | some s => !(s == "")

/-- Lines 874-883: first retrieval on the active tab; on a falsy result
with a prior tab switch, one more retrieval on the original tab.
Returns the number of retriever invocations and the final cookie. -/
def cookieExtractionPhase (e : CookieEnv) : Nat × Option String :=
  let first := e.activeTabCookie
  if !(pyTruthyOptStr first) && e.switchedTab then
    (2, e.originalTabCookie)
  else (1, first)

/-- Lines 885-889: the final verdict - a falsy cookie makes the flow
log the missing-cookie message and return False, otherwise it
continues successfully. -/
def cookieFinalVerdict (e : CookieEnv) : Bool × Option String :=
  if !(pyTruthyOptStr (cookieExtractionPhase e).2) then
    (false, some "未获取到 session cookie")
  else (true, none)

/-- C9: cookie-extraction fallback and final verdict.  Whenever the
active tab yields no session cookie and the driver had switched tabs,
the retriever is invoked exactly once more and its answer on the
original tab becomes the result; if that is still absent, the flow
returns failure with the missing-session-cookie reason (and cannot
raise, the embedded fragment being a total function). -/
theorem cookie_fallback_and_verdict (e : CookieEnv)
    (h1 : pyTruthyOptStr e.activeTabCookie = false)
    (h2 : e.switchedTab = true) :
    (cookieExtractionPhase e).1 = 2 ∧
    (cookieExtractionPhase e).2 = e.originalTabCookie ∧
    (pyTruthyOptStr e.originalTabCookie = false →
      cookieFinalVerdict e = (false, some "未获取到 session cookie")) := by
  refine ⟨?_, ?_, ?_⟩
  · simp [cookieExtractionPhase, h1, h2]
  · simp [cookieExtractionPhase, h1, h2]
  · intro h3
    simp [cookieFinalVerdict, cookieExtractionPhase, h1, h2, h3]

/-- C9 (witness): a run that switched tabs and found no cookie on
either tab. -/
theorem cookie_fallback_and_verdict_witness :
    (cookieExtractionPhase ⟨true, none, none⟩).1 = 2 ∧
    (cookieExtractionPhase ⟨true, none, none⟩).2 = none ∧
    cookieFinalVerdict ⟨true, none, none⟩ =
      (false, some "未获取到 session cookie") :=
  ⟨(cookie_fallback_and_verdict ⟨true, none, none⟩ rfl rfl).1,
   (cookie_fallback_and_verdict ⟨true, none, none⟩ rfl rfl).2.1,
   (cookie_fallback_and_verdict ⟨true, none, none⟩ rfl rfl).2.2 rfl⟩
